import Mathlib

/-!
Shallow embedding of collie's pipeline generation coordinator
(`src/collie/module.py`) and conversation tokenization
(`src/collie/data/template_utils.py`), with theorems checking the
natural-language specification against the code.

Modelling conventions:
* A transformer layer object is modelled by which cache attributes it
  carries. In Python, `hasattr(layer, "past_key_values")` may be false
  (no attribute), or the attribute may hold `None`, or a tensor. We model
  an attribute slot as `Option (Option Nat)`: `none` = attribute absent,
  `some none` = attribute present but `None`, `some (some v)` = attribute
  holds opaque tensor `v` (tensors are opaque: a `Nat` identifier).
* `torch` 2-D tensors of token ids are modelled as `List (List Int)`
  (rows of a rectangular batch); `t[:, -1:]` keeps the last element of
  each row; `t.shape` is the pair (number of rows, row length).
* The DeepSpeed engine (`engine.eval_batch`) and the inner HuggingFace
  generation loop are external collaborators: they appear as function
  parameters that transform the layer states.
* Exceptions are modelled with `Except Unit`.
-/

/-- A pipeline layer as seen by `PipelineGenerationMixin`: its
`past_key_values` attribute slot and its `hidden_states` attribute slot,
each `none` when the Python object lacks the attribute, `some none` when
the attribute is `None`, `some (some v)` when it holds a tensor `v`. -/
structure Layer where
  past_key_values : Option (Option Nat)
  hidden_states : Option (Option Nat)
deriving DecidableEq, Repr

/-- Common body of `_get_past_key_values` and `_get_hidden_states`
(`module.py` lines 255-260 and 273-278, identical up to `attr_name`):
walk the layers in definition order, collect `getattr(layer, attr_name)`
for every layer that has the attribute with a non-`None` value, and
return the list only when it has more than one element, else `None`. -/
def gatherSlots (slots : List (Option (Option Nat))) : Option (List Nat) :=
  let vals := slots.filterMap Option.join
  if vals.length > 1 then some vals else none

/-- `PipelineGenerationMixin._get_past_key_values` (module.py 255-260). -/
def getPastKeyValues (layers : List Layer) : Option (List Nat) :=
  gatherSlots (layers.map (·.past_key_values))

/-- `PipelineGenerationMixin._get_hidden_states` (module.py 273-278). -/
def getHiddenStates (layers : List Layer) : Option (List Nat) :=
  gatherSlots (layers.map (·.hidden_states))

/-- `PipelineGenerationMixin._clean_past_key_values` (module.py 262-265):
for each layer that has the attribute, set it to `None`. -/
def cleanPastKeyValues (layers : List Layer) : List Layer :=
  layers.map (fun l => { l with past_key_values := l.past_key_values.map (fun _ => none) })

/-- `PipelineGenerationMixin._clean_hidden_states` (module.py 280-283). -/
def cleanHiddenStates (layers : List Layer) : List Layer :=
  layers.map (fun l => { l with hidden_states := l.hidden_states.map (fun _ => none) })

/-- `PipelineGenerationMixin._set_past_key_values` (module.py 267-271):
`past_key_values = iter(past_key_values)`, then for each layer having the
attribute, assign `next(past_key_values)`. An exhausted iterator raises
`StopIteration` (modelled as `Except.error ()`); leftover entries in the
iterator are never consumed and raise nothing. -/
def setPastKeyValues : List Layer → List Nat → Except Unit (List Layer)
  | [], _ => .ok []
  | l :: ls, vs =>
    if (l.past_key_values).isSome then
      match vs with
      | [] => .error ()
      | v :: vs' => (setPastKeyValues ls vs').map (fun ls' => { l with past_key_values := some (some v) } :: ls')
    else
      (setPastKeyValues ls vs).map (fun ls' => l :: ls')

/-- Whether every layer's cache slot and hidden-state slot read as empty
(the attribute is absent or holds `None`). -/
def slotsCleared (layers : List Layer) : Bool :=
  layers.all (fun l => (l.past_key_values.join).isNone && (l.hidden_states.join).isNone)

/-- Number of layers carrying a non-empty `past_key_values` slot. -/
def pkvBearingCount (layers : List Layer) : Nat :=
  layers.countP (fun l => (l.past_key_values.join).isSome)

/-- Number of layers carrying a non-empty `hidden_states` slot. -/
def hsBearingCount (layers : List Layer) : Nat :=
  layers.countP (fun l => (l.hidden_states.join).isSome)

/-- Number of layers that have the `past_key_values` attribute at all
(the layers that `_set_past_key_values` assigns to). -/
def pkvAttrCount (layers : List Layer) : Nat :=
  layers.countP (fun l => (l.past_key_values).isSome)

lemma length_filterMap_join (slots : List (Option (Option Nat))) :
    (slots.filterMap Option.join).length = slots.countP (fun s => (Option.join s).isSome) := by
  induction slots with
  | nil => simp
  | cons s ss ih =>
    rcases s with _ | (_ | v) <;>
      simp [Option.join, List.filterMap_cons, List.countP_cons, ih]

lemma countP_map_comp (layers : List Layer) (f : Layer → Option (Option Nat)) :
    (layers.map f).countP (fun s => (Option.join s).isSome)
      = layers.countP (fun l => (Option.join (f l)).isSome) := by
  rw [List.countP_map]
  rfl

/-- `input_ids[:, -1:]` applied to one row of a 2-D token tensor: keep the
last element (last column); an empty row stays empty. -/
def lastCol (row : List Int) : List Int := row.drop (row.length - 1)

/-- `tensor.shape` of a 2-D batch: (number of rows, row length). -/
def shape2 (t : List (List Int)) : Nat × Nat := (t.length, ((t.head?).getD []).length)

/-- The mutable state of `PipelineGenerationMixin` that `forward` reads and
writes: the stage's layers and `self.communicate_buffer_shape`
(module.py 206-207, initialised to `None`). -/
structure GenState where
  layers : List Layer
  communicate_buffer_shape : Option (Nat × Nat)
deriving DecidableEq, Repr

/-- The observable outcome of one `PipelineGenerationMixin.forward` call:
the (possibly truncated) batch handed to `engine.eval_batch`, whether
`engine.reset_activation_shape()` was invoked, and the
`CausalLMOutputWithPast` fields built at module.py 229-235. -/
structure FwdOut where
  forwarded : List (List Int)
  didReset : Bool
  logits : Nat
  past_key_values : Option (List Nat)
  hidden_states : Option (List Nat)
deriving DecidableEq, Repr

/-- `PipelineGenerationMixin.forward` (module.py 216-235).
`engineEval` stands for the external `engine.eval_batch`, which runs the
stage's layers (mutating their cache/hidden-state attributes) and returns
logits (opaque `Nat`). Steps, in source order: read
`_get_past_key_values()`; if non-`None`, truncate `input_ids` to its last
column; compare `communicate_buffer_shape` with the batch shape — on first
call record it, on a change call `engine.reset_activation_shape()` and
record the new shape; run `eval_batch`; return logits with freshly
gathered `past_key_values` and `hidden_states`. -/
def forward (engineEval : List (List Int) → List Layer → List Layer × Nat)
    (st : GenState) (input_ids : List (List Int)) : GenState × FwdOut :=
  let past_key_values := getPastKeyValues st.layers
  let input_ids' := if past_key_values.isSome then input_ids.map lastCol else input_ids
  let bufReset : Option (Nat × Nat) × Bool :=
    match st.communicate_buffer_shape with
    | none => (some (shape2 input_ids'), false)
    | some s =>
      if s ≠ shape2 input_ids' then (some (shape2 input_ids'), true) else (some s, false)
  let res := engineEval input_ids' st.layers
  ({ layers := res.1, communicate_buffer_shape := bufReset.1 },
   { forwarded := input_ids', didReset := bufReset.2, logits := res.2,
     past_key_values := getPastKeyValues res.1,
     hidden_states := getHiddenStates res.1 })

/-- `PipelineGenerationMixin.generate` (module.py 210-214): run the inner
HuggingFace generation loop (external collaborator `inner`, which drives
`forward` and mutates the layers, and either returns output ids or raises),
then — only on the normal return path, there is no `try/finally` — clean
every layer's `past_key_values` and `hidden_states` attribute. When `inner`
raises, the exception propagates and the layers keep whatever state the
loop left in them. -/
def generate (inner : List Layer → List Layer × Except Unit Nat)
    (layers : List Layer) : List Layer × Except Unit Nat :=
  match inner layers with
  | (layers', .ok out) => (cleanHiddenStates (cleanPastKeyValues layers'), .ok out)
  | (layers', .error e) => (layers', .error e)

/-- C4: `_get_past_key_values` (and `_get_hidden_states`) collects every
layer's non-empty slot, in layer definition order, and returns that list
exactly when at least two layers hold non-empty slots; with fewer than two
cache-bearing layers it returns `None`, never a single-element list. -/
theorem gather_collects_ordered_iff_at_least_two (layers : List Layer) :
    (getPastKeyValues layers =
      if 2 ≤ pkvBearingCount layers
      then some ((layers.map (·.past_key_values)).filterMap Option.join)
      else none)
    ∧ (getHiddenStates layers =
      if 2 ≤ hsBearingCount layers
      then some ((layers.map (·.hidden_states)).filterMap Option.join)
      else none) := by
  constructor
  · unfold getPastKeyValues gatherSlots pkvBearingCount
    simp only [length_filterMap_join, countP_map_comp]
    split <;> split <;> first | rfl | omega
  · unfold getHiddenStates gatherSlots hsBearingCount
    simp only [length_filterMap_join, countP_map_comp]
    split <;> split <;> first | rfl | omega

lemma slotsCleared_clean (layers : List Layer) :
    slotsCleared (cleanHiddenStates (cleanPastKeyValues layers)) = true := by
  simp only [slotsCleared, cleanHiddenStates, cleanPastKeyValues, List.map_map,
    List.all_map, List.all_eq_true, Function.comp]
  intro l _
  rcases hp : l.past_key_values with _ | _ <;> rcases hh : l.hidden_states with _ | _ <;>
    simp [hp, hh, Option.join]

/-- C1 counterexample: a `generate` call whose inner generation loop raises
(after a forward pass left a layer's `past_key_values` populated with
tensor 5) returns with that stale slot still populated — the cleanup at
module.py 212-213 is not in a `try/finally`, so the error path skips it. -/
theorem generate_error_path_keeps_stale_cache :
    slotsCleared (generate (fun ls => (ls, Except.error ()))
      [{ past_key_values := some (some 5), hidden_states := some none }]).1 = false := by
  rfl

/-- C1 (amended): after a `generate` call that returns normally, every
layer's `past_key_values` slot and `hidden_states` slot on the local stage
reads as empty; the guarantee does not extend to the error path. -/
theorem generate_success_clears_cache
    (inner : List Layer → List Layer × Except Unit Nat) (layers : List Layer) (out : Nat)
    (h : (generate inner layers).2 = Except.ok out) :
    slotsCleared (generate inner layers).1 = true := by
  unfold generate at h ⊢
  rcases hi : inner layers with ⟨layers', res⟩
  rw [hi] at h
  cases res with
  | ok o => exact slotsCleared_clean layers'
  | error e => exact Except.noConfusion h

/-- Witness for C1: a concrete successful `generate` call on one layer with
populated cache and hidden state ends with all slots empty. -/
theorem generate_success_clears_cache_witness :
    slotsCleared (generate (fun ls => (ls, Except.ok 7))
      [{ past_key_values := some (some 5), hidden_states := some (some 3) }]).1 = true :=
  generate_success_clears_cache (fun ls => (ls, Except.ok 7))
    [{ past_key_values := some (some 5), hidden_states := some (some 3) }] 7 rfl

/-- C2: on each `forward` call, when the coordinator holds gathered cache
(`_get_past_key_values()` non-`None`, the CachePopulated state) only the
last column of `input_ids` — the most recently produced token of each
row — is handed to the engine; with no gathered cache (NoCache) the full
input is handed over. Moreover the `past_key_values` returned by the call
is exactly what the next call's state gathers, so the state becomes
CachePopulated exactly when a forward pass returns non-empty cache. -/
theorem forward_truncates_iff_cache_populated
    (engineEval : List (List Int) → List Layer → List Layer × Nat)
    (st : GenState) (input_ids : List (List Int)) :
    ((forward engineEval st input_ids).2.forwarded
      = if (getPastKeyValues st.layers).isSome then input_ids.map lastCol else input_ids)
    ∧ ((forward engineEval st input_ids).2.past_key_values
      = getPastKeyValues (forward engineEval st input_ids).1.layers) :=
  ⟨rfl, rfl⟩

/-- C5: a `forward` call resets the inter-stage communication buffers
(`engine.reset_activation_shape()`) exactly when a shape is already stored
and differs from the forwarded batch's shape — in particular the first
call (nothing stored) never resets — and after every call the stored
shape equals the forwarded batch's shape, so of two calls with differing
forwarded shapes exactly the one where the shape changes resets. -/
theorem forward_reset_iff_shape_changed
    (engineEval : List (List Int) → List Layer → List Layer × Nat)
    (st : GenState) (input_ids : List (List Int)) :
    ((forward engineEval st input_ids).2.didReset = true
      ↔ ∃ s, st.communicate_buffer_shape = some s
          ∧ s ≠ shape2 (forward engineEval st input_ids).2.forwarded)
    ∧ (forward engineEval st input_ids).1.communicate_buffer_shape
      = some (shape2 (forward engineEval st input_ids).2.forwarded) := by
  unfold forward
  cases hb : st.communicate_buffer_shape with
  | none => simp
  | some s =>
    by_cases hs : s = shape2 (if (getPastKeyValues st.layers).isSome
        then input_ids.map lastCol else input_ids) <;>
      simp [hs]

/-- C6 counterexample: a too-long cache list is not rejected — with one
cache-bearing layer and a two-entry list, `_set_past_key_values` succeeds
and silently ignores the extra entry (the iterator at module.py 268 is
simply never exhausted). -/
theorem set_cache_too_long_list_accepted :
    setPastKeyValues [{ past_key_values := some none, hidden_states := none }] [4, 5]
      = Except.ok [{ past_key_values := some (some 4), hidden_states := none }] := by
  rfl

/-- C6 (amended): entries are assigned to the layers that carry the
`past_key_values` attribute in the same definition order used for
gathering (the gathered slots of the result are the first
`pkvAttrCount layers` entries of the list); a list *shorter* than the
number of cache-bearing layers is a fatal error (`StopIteration`), and
that is the only error — a too-long list is accepted with the extra
entries ignored. -/
theorem set_cache_order_and_mismatch (layers : List Layer) (vals : List Nat) :
    (setPastKeyValues layers vals = Except.error () ↔ vals.length < pkvAttrCount layers)
    ∧ (∀ layers', setPastKeyValues layers vals = Except.ok layers' →
        (layers'.map (·.past_key_values)).filterMap Option.join
          = vals.take (pkvAttrCount layers)) := by
  induction layers generalizing vals with
  | nil =>
    refine ⟨by simp [setPastKeyValues, pkvAttrCount], ?_⟩
    intro layers' h
    simp [setPastKeyValues] at h
    subst h
    simp [pkvAttrCount]
  | cons l ls ih =>
    by_cases hat : (l.past_key_values).isSome
    · have hcount : pkvAttrCount (l :: ls) = pkvAttrCount ls + 1 := by
        simp [pkvAttrCount, List.countP_cons, hat]
      cases vals with
      | nil =>
        refine ⟨by simp [setPastKeyValues, hat, hcount], ?_⟩
        intro layers' h
        simp [setPastKeyValues, hat] at h
      | cons v vs =>
        constructor
        · simp only [setPastKeyValues, hat, if_pos, hcount]
          cases hrec : setPastKeyValues ls vs with
          | ok tl => simp [Except.map, hrec, ← (ih vs).1, hrec]
          | error e => simp [Except.map, hrec, ← (ih vs).1, hrec]
        · intro layers' h
          simp only [setPastKeyValues, hat, if_pos] at h
          cases hrec : setPastKeyValues ls vs with
          | error e => rw [hrec] at h; exact Except.noConfusion h
          | ok tl =>
            rw [hrec] at h
            simp only [Except.map] at h
            cases h
            have := (ih vs).2 tl hrec
            simp [hcount, List.filterMap_cons, Option.join, this]
    · have hat' : l.past_key_values = none := by
        cases hpp : l.past_key_values <;> simp [hpp] at hat ⊢
      have hcount : pkvAttrCount (l :: ls) = pkvAttrCount ls := by
        simp [pkvAttrCount, List.countP_cons, hat']
      constructor
      · simp only [setPastKeyValues, hat, if_neg, Bool.false_eq_true, hcount]
        cases hrec : setPastKeyValues ls vals with
        | ok tl => simp [Except.map, ← (ih vals).1, hrec]
        | error e => simp [Except.map, ← (ih vals).1, hrec]
      · intro layers' h
        simp only [setPastKeyValues, hat, if_neg, Bool.false_eq_true] at h
        cases hrec : setPastKeyValues ls vals with
        | error e => rw [hrec] at h; exact Except.noConfusion h
        | ok tl =>
          rw [hrec] at h
          simp only [Except.map] at h
          cases h
          have := (ih vals).2 tl hrec
          simp [hcount, List.filterMap_cons, hat', Option.join, this]

/-- Witness for C6: three layers — two cache-bearing around one without
the attribute — receive the first two entries of a three-entry list in
definition order; the third entry is ignored. -/
theorem set_cache_order_and_mismatch_witness :
    ((setPastKeyValues
        [{ past_key_values := some none, hidden_states := none },
         { past_key_values := none, hidden_states := some none },
         { past_key_values := some (some 9), hidden_states := none }] [4, 5, 6]
      = Except.error ()) ↔
      ([4, 5, 6].length <
        pkvAttrCount
          [{ past_key_values := some none, hidden_states := none },
           { past_key_values := none, hidden_states := some none },
           { past_key_values := some (some 9), hidden_states := none }])) :=
  (set_cache_order_and_mismatch
    [{ past_key_values := some none, hidden_states := none },
     { past_key_values := none, hidden_states := some none },
     { past_key_values := some (some 9), hidden_states := none }] [4, 5, 6]).1

/-- First warning at module.py 154-155 (string concatenated with an
f-string): reports the observed world size and the requested dims. -/
def worldSizeWarning (world_size pp_size dp_size tp_size : Nat) : String :=
  "The world size is not equal to the product of the parallel sizes set."
    ++ toString world_size ++ " != " ++ toString pp_size ++ " * "
    ++ toString dp_size ++ " * " ++ toString tp_size ++ "."

/-- Second warning, module.py 157:
`logger.rank_zero_warning("Set dp_size to {dp_size}.")`. The literal has
no `f` prefix, so the braces and the name inside are plain text (here the
braces are written with `\x7b`/`\x7d` escapes); the message is the same
constant string whatever `dp_size` was recomputed to. -/
def dpSizeWarning : String := "Set dp_size to \x7bdp_size\x7d."

/-- Mesh resolution in `PipelineModel.__init__` (module.py 152-157):
given the requested topology dims `(pp_size, dp_size, tp_size)` and the
observed `WORLD_SIZE`, if they disagree emit the two warnings and
recompute `dp_size = WORLD_SIZE // (tp_size * pp_size)` (floor division);
otherwise keep `dp_size` and warn nothing. Returns the resolved `dp_size`
and the warnings; this step raises nothing. -/
def resolveMesh (pp_size dp_size tp_size world_size : Nat) : Nat × List String :=
  if world_size ≠ pp_size * dp_size * tp_size then
    (world_size / (tp_size * pp_size),
     [worldSizeWarning world_size pp_size dp_size tp_size, dpSizeWarning])
  else (dp_size, [])

/-- Modelled from the spec: the grid validity check asserted at
`MultiParallelGrid.__init__` (module.py 310) is implemented by DeepSpeed's
`PipelineParallelGrid._is_grid_valid`, which is not part of this
repository. Following the spec's words — "Validate the resulting mesh is
non-degenerate (all dims ≥ 1, integer division exact); if not, fail
fatally" — the mesh is valid when every dimension is at least 1 and the
dimensions' product equals the world size exactly. -/
def is_grid_valid (pp_size dp_size tp_size world_size : Nat) : Bool :=
  decide (1 ≤ pp_size) && decide (1 ≤ dp_size) && decide (1 ≤ tp_size)
    && (pp_size * dp_size * tp_size == world_size)

/-- Mesh construction in `PipelineModel.__init__` (module.py 152-167 with
the assert at 310): resolve the dims, rebuild the topology with the
resolved `dp_size`, then `MultiParallelGrid` asserts grid validity; a
failing assert (`AssertionError "Invalid Grid"`) aborts construction,
modelled as `Except.error ()`. On success the resolved `dp_size` is
returned. -/
def constructMesh (pp_size dp_size tp_size world_size : Nat) : Except Unit Nat :=
  let dp' := (resolveMesh pp_size dp_size tp_size world_size).1
  if is_grid_valid pp_size dp' tp_size world_size then .ok dp' else .error ()

/-- C3: for positive `pp_size`, `tp_size` and a `world_size` divisible by
their product, mesh resolution yields a `dp_size` with
`pp_size * dp_size * tp_size = world_size`; when the requested product
disagrees with the world size, `dp_size` is recomputed as
`world_size / (tp_size * pp_size)` and warnings are emitted — resolution
itself raises nothing and construction proceeds (the grid assert holds). -/
theorem mesh_resolution_product (pp_size dp_size tp_size world_size : Nat)
    (hpp : 0 < pp_size) (htp : 0 < tp_size) (hw : 0 < world_size)
    (hdvd : pp_size * tp_size ∣ world_size) :
    pp_size * (resolveMesh pp_size dp_size tp_size world_size).1 * tp_size = world_size
    ∧ (world_size ≠ pp_size * dp_size * tp_size →
        (resolveMesh pp_size dp_size tp_size world_size).1
          = world_size / (tp_size * pp_size)
        ∧ (resolveMesh pp_size dp_size tp_size world_size).2
          = [worldSizeWarning world_size pp_size dp_size tp_size, dpSizeWarning])
    ∧ constructMesh pp_size dp_size tp_size world_size
        = Except.ok (resolveMesh pp_size dp_size tp_size world_size).1 := by
  have hptpos : 0 < tp_size * pp_size := Nat.mul_pos htp hpp
  have hprod : pp_size * (resolveMesh pp_size dp_size tp_size world_size).1 * tp_size
      = world_size := by
    unfold resolveMesh
    by_cases h : world_size = pp_size * dp_size * tp_size
    · simp [h]
    · simp only [h, ne_eq, not_false_eq_true, if_pos, if_true]
      obtain ⟨k, hk⟩ := hdvd
      subst hk
      rw [show pp_size * tp_size * k / (tp_size * pp_size) = k by
        rw [mul_comm tp_size pp_size, Nat.mul_div_cancel_left k (Nat.mul_pos hpp htp)]]
      ring
  refine ⟨hprod, ?_, ?_⟩
  · intro h
    unfold resolveMesh
    simp [h]
  · have hdp : 0 < (resolveMesh pp_size dp_size tp_size world_size).1 := by
      rcases Nat.eq_zero_or_pos (resolveMesh pp_size dp_size tp_size world_size).1 with h0 | h0
      · rw [h0] at hprod
        simp at hprod
        omega
      · exact h0
    unfold constructMesh
    rw [if_pos]
    simp only [is_grid_valid, Bool.and_eq_true, decide_eq_true_eq, beq_iff_eq]
    exact ⟨⟨⟨hpp, hdp⟩, htp⟩, hprod⟩

/-- Witness for C3: requesting `pp=3, tp=2` with assumed `dp=1` under an
observed world size of 12 resolves to `dp=2` with `3 * 2 * 2 = 12`,
warnings emitted and construction succeeding. -/
theorem mesh_resolution_product_witness :
    3 * (resolveMesh 3 1 2 12).1 * 2 = 12
    ∧ (12 ≠ 3 * 1 * 2 →
        (resolveMesh 3 1 2 12).1 = 12 / (2 * 3)
        ∧ (resolveMesh 3 1 2 12).2 = [worldSizeWarning 12 3 1 2, dpSizeWarning])
    ∧ constructMesh 3 1 2 12 = Except.ok (resolveMesh 3 1 2 12).1 :=
  mesh_resolution_product 3 1 2 12 (by decide) (by decide) (by decide) (by decide)

/-- C7: when the mesh is still invalid after recomputation — the world
size is not an exact multiple of `pp_size * tp_size`, or a requested
dimension is non-positive — the grid-validity assert fails and
construction aborts with an error. -/
theorem construct_aborts_on_invalid_mesh (pp_size dp_size tp_size world_size : Nat)
    (hw : 0 < world_size)
    (h : ¬ (pp_size * tp_size ∣ world_size) ∨ pp_size = 0 ∨ tp_size = 0) :
    constructMesh pp_size dp_size tp_size world_size = Except.error () := by
  have hprod : pp_size * (resolveMesh pp_size dp_size tp_size world_size).1 * tp_size
      ≠ world_size := by
    rcases h with h | h | h
    · intro hc
      have hd : pp_size * tp_size
          ∣ pp_size * (resolveMesh pp_size dp_size tp_size world_size).1 * tp_size :=
        ⟨(resolveMesh pp_size dp_size tp_size world_size).1, by ring⟩
      rw [hc] at hd
      exact h hd
    · subst h
      simpa using hw.ne
    · subst h
      simpa using hw.ne
  unfold constructMesh
  have hfalse : is_grid_valid pp_size
      (resolveMesh pp_size dp_size tp_size world_size).1 tp_size world_size = false := by
    rw [Bool.eq_false_iff]
    intro hc
    simp only [is_grid_valid, Bool.and_eq_true, decide_eq_true_eq, beq_iff_eq] at hc
    exact hprod hc.2
  simp [hfalse]

/-- Witness for C7: `pp=3, tp=2` with world size 13 (not a multiple of 6)
aborts construction. -/
theorem construct_aborts_on_invalid_mesh_witness :
    constructMesh 3 1 2 13 = Except.error () :=
  construct_aborts_on_invalid_mesh 3 1 2 13 (by decide) (Or.inl (by decide))

/-- C8 (code bug): on the mismatch `pp=3, dp=1, tp=2`, world size 12, the
recomputed `dp_size` is 2, and the second warning emitted is exactly the
constant `"Set dp_size to \x7bdp_size\x7d."` — the module.py 157 literal
lacks the `f` prefix, so the message never contains the digit of the
corrected value (no `'2'` occurs in it); the claim that the warning names
the recomputed number fails. -/
theorem dp_size_warning_lacks_recomputed_value :
    (resolveMesh 3 1 2 12).1 = 2
    ∧ (resolveMesh 3 1 2 12).2 = [worldSizeWarning 12 3 1 2, dpSizeWarning]
    ∧ dpSizeWarning.toList.contains '2' = false := by
  refine ⟨by decide, rfl, by decide⟩

/-- `os.environ[k] = v` on an association-list view of the process
environment: overwrite the existing binding for `k` or append one. -/
def setEnv (env : List (String × String)) (k v : String) : List (String × String) :=
  match env with
  | [] => [(k, v)]
  | (k', v') :: rest => if k' = k then (k, v) :: rest else (k', v') :: setEnv rest k v

/-- `os.environ.get(k)` on the association-list view. -/
def lookupEnv (env : List (String × String)) (k : String) : Option String :=
  match env with
  | [] => none
  | (k', v') :: rest => if k' = k then some v' else lookupEnv rest k

/-- `json.dumps` of a list of integers: `"[a, b, c]"`. -/
def jsonDumps (xs : List Nat) : String :=
  "[" ++ String.intercalate ", " (xs.map toString) ++ "]"

/-- module.py 192-194, the last statements of `PipelineModel.__init__`:
publish the global partition boundaries (`self.parts`), the local pipeline
stage index and the data-parallel replica index into the process
environment, readable by the hosting process and its children. -/
def publishDiscoveryState (env : List (String × String)) (parts : List Nat)
    (stage_id dp_rank : Nat) : List (String × String) :=
  setEnv (setEnv (setEnv env "COLLIE_PP_PARTS" (jsonDumps parts))
      "COLLIE_PP_RANK" (toString stage_id))
    "COLLIE_DP_RANK" (toString dp_rank)

lemma lookupEnv_setEnv_same (env : List (String × String)) (k v : String) :
    lookupEnv (setEnv env k v) k = some v := by
  induction env with
  | nil => simp [setEnv, lookupEnv]
  | cons p rest ih =>
    obtain ⟨k', v'⟩ := p
    by_cases h : k' = k <;> simp [setEnv, lookupEnv, h, ih]

lemma lookupEnv_setEnv_other (env : List (String × String)) (k k' v : String)
    (h : k ≠ k') : lookupEnv (setEnv env k v) k' = lookupEnv env k' := by
  induction env with
  | nil => simp [setEnv, lookupEnv, h]
  | cons p rest ih =>
    obtain ⟨k'', v''⟩ := p
    by_cases h2 : k'' = k
    · subst h2
      simp [setEnv, lookupEnv, h]
    · by_cases h3 : k'' = k' <;> simp [setEnv, lookupEnv, h2, h3, ih, Ne.symm h]

/-- C9: after `PipelineModel` construction, the process environment holds
the three discovery keys: `COLLIE_PP_PARTS` with the JSON dump of the
global partition boundaries, `COLLIE_PP_RANK` with the local pipeline
stage index, and `COLLIE_DP_RANK` with the data-parallel replica index —
simple key/value state readable by the hosting process and its children. -/
theorem construction_publishes_discovery_state (env : List (String × String))
    (parts : List Nat) (stage_id dp_rank : Nat) :
    lookupEnv (publishDiscoveryState env parts stage_id dp_rank) "COLLIE_PP_PARTS"
      = some (jsonDumps parts)
    ∧ lookupEnv (publishDiscoveryState env parts stage_id dp_rank) "COLLIE_PP_RANK"
      = some (toString stage_id)
    ∧ lookupEnv (publishDiscoveryState env parts stage_id dp_rank) "COLLIE_DP_RANK"
      = some (toString dp_rank) := by
  unfold publishDiscoveryState
  refine ⟨?_, ?_, ?_⟩
  · rw [lookupEnv_setEnv_other _ _ _ _ (by decide),
      lookupEnv_setEnv_other _ _ _ _ (by decide), lookupEnv_setEnv_same]
  · rw [lookupEnv_setEnv_other _ _ _ _ (by decide), lookupEnv_setEnv_same]
  · rw [lookupEnv_setEnv_same]

/-- One prepared message produced by a chat-template function
(`prepare_template_fn` in template_utils.py): its text and whether its
tokens contribute to the loss. -/
structure PreparedMessage where
  content : String
  require_loss : Bool

/-- The external HuggingFace tokenizer's result on one string with
`add_special_tokens=False`: `input_ids` and `attention_mask`. -/
structure TokenizerOutput where
  input_ids : List Int
  attention_mask : List Int

/-- One iteration of the accumulation loop of `tokenize_conversation`
(template_utils.py 132-140): tokenize the message, use the token ids as
labels when the segment requires loss and `-100` repeated otherwise, and
extend the three accumulated lists. -/
def tokenizeStep (tok : String → TokenizerOutput)
    (acc : List Int × List Int × List Int) (m : PreparedMessage) :
    List Int × List Int × List Int :=
  let output := tok m.content
  let label := if m.require_loss then output.input_ids
    else List.replicate output.input_ids.length (-100)
  (acc.1 ++ output.input_ids, acc.2.1 ++ label, acc.2.2 ++ output.attention_mask)

/-- `tokenize_conversation` (template_utils.py 115-142) after the template
function has produced `prepared_messages`: fold the accumulation loop over
the messages starting from three empty lists, returning
`(input_ids, labels, attention_mask)`. -/
def tokenizeConversation (tok : String → TokenizerOutput)
    (prepared_messages : List PreparedMessage) : List Int × List Int × List Int :=
  prepared_messages.foldl (tokenizeStep tok) ([], [], [])

lemma labelSegment_forall₂ (ids : List Int) (require_loss : Bool) :
    List.Forall₂ (fun lab id => lab = -100 ∨ lab = id)
      (if require_loss then ids else List.replicate ids.length (-100)) ids := by
  cases require_loss with
  | true =>
    simp only [if_true]
    exact List.forall₂_same.mpr (fun x _ => Or.inr rfl)
  | false =>
    simp only [Bool.false_eq_true, if_false]
    induction ids with
    | nil => simp
    | cons a l ih =>
      rw [List.length_cons, List.replicate_succ]
      refine List.Forall₂.cons ?_ ih
      exact Or.inl rfl

lemma tokenizeFold_invariant (tok : String → TokenizerOutput)
    (hmask : ∀ s, (tok s).attention_mask.length = (tok s).input_ids.length) :
    ∀ (msgs : List PreparedMessage) (acc : List Int × List Int × List Int),
      List.Forall₂ (fun lab id => lab = -100 ∨ lab = id) acc.2.1 acc.1 →
      acc.2.2.length = acc.1.length →
      List.Forall₂ (fun lab id => lab = -100 ∨ lab = id)
          (msgs.foldl (tokenizeStep tok) acc).2.1 (msgs.foldl (tokenizeStep tok) acc).1
        ∧ (msgs.foldl (tokenizeStep tok) acc).2.2.length
          = (msgs.foldl (tokenizeStep tok) acc).1.length := by
  intro msgs
  induction msgs with
  | nil => exact fun acc h1 h2 => ⟨h1, h2⟩
  | cons m ms ih =>
    intro acc h1 h2
    simp only [List.foldl_cons]
    refine ih (tokenizeStep tok acc m) ?_ ?_
    · exact List.rel_append h1 (labelSegment_forall₂ (tok m.content).input_ids m.require_loss)
    · simp [tokenizeStep, h2, hmask m.content]

/-- C10: for every tokenizer satisfying the HuggingFace contract that the
attention mask has one entry per token, and every prepared conversation,
`tokenize_conversation` returns labels aligned entry-by-entry with
`input_ids` — each label is `-100` (segments without loss) or the token id
at the same position (segments with loss) — and the three returned lists
have equal length (the `Forall₂` alignment forces
`labels.length = input_ids.length`; the mask length is stated
separately). -/
theorem tokenize_conversation_label_alignment (tok : String → TokenizerOutput)
    (hmask : ∀ s, (tok s).attention_mask.length = (tok s).input_ids.length)
    (msgs : List PreparedMessage) :
    List.Forall₂ (fun lab id => lab = -100 ∨ lab = id)
        (tokenizeConversation tok msgs).2.1 (tokenizeConversation tok msgs).1
      ∧ (tokenizeConversation tok msgs).2.2.length
        = (tokenizeConversation tok msgs).1.length :=
  tokenizeFold_invariant tok hmask msgs ([], [], []) (List.Forall₂.nil) rfl

/-- Witness for C10: a concrete two-message conversation under a tokenizer
mapping each string to one token (its length) with a singleton mask. -/
theorem tokenize_conversation_label_alignment_witness :
    List.Forall₂ (fun lab id => lab = -100 ∨ lab = id)
        (tokenizeConversation (fun s => ⟨[(s.length : Int)], [1]⟩)
          [{ content := "hi", require_loss := false },
           { content := "yes", require_loss := true }]).2.1
        (tokenizeConversation (fun s => ⟨[(s.length : Int)], [1]⟩)
          [{ content := "hi", require_loss := false },
           { content := "yes", require_loss := true }]).1
      ∧ (tokenizeConversation (fun s => ⟨[(s.length : Int)], [1]⟩)
          [{ content := "hi", require_loss := false },
           { content := "yes", require_loss := true }]).2.2.length
        = (tokenizeConversation (fun s => ⟨[(s.length : Int)], [1]⟩)
          [{ content := "hi", require_loss := false },
           { content := "yes", require_loss := true }]).1.length :=
  tokenize_conversation_label_alignment (fun s => ⟨[(s.length : Int)], [1]⟩)
    (fun _ => rfl)
    [{ content := "hi", require_loss := false },
     { content := "yes", require_loss := true }]
